import Mathlib

/-!
Verification of the quiz generator in quizapp.py: a shallow embedding of its
question-fetch/validation/fallback logic and of the answer/score session flow,
followed by theorems about the embedded definitions.

The external library boundaries (the Groq chat completion call and
json.loads) are not code of this repository; their outcome is therefore a
parameter of the embedding: the collaborator either raises or returns text,
and that text either fails to parse or parses to a JSON value.
-/

namespace QuizApp

/-- Decoded JSON values, the shape json.loads produces: null, booleans,
numbers, strings, arrays and objects (objects as key/value association
lists, keys being strings). -/
inductive Json where
  | null
  | bool (b : Bool)
  | num (n : Int)
  | str (s : String)
  | arr (elems : List Json)
  | obj (fields : List (String × Json))

/-- Association-list lookup for a decoded JSON object, first binding wins
(Python dicts decoded from JSON have unique keys). -/
def jsonLookup (fields : List (String × Json)) (k : String) : Option Json :=
  (fields.find? (fun kv => kv.1 == k)).map (fun kv => kv.2)

/-- Models the Python subscript `container[key]` for a decoded-JSON container
and a decoded-JSON key: an object looks up a string key (KeyError when
absent, KeyError for a hashable non-string key, TypeError for an unhashable
one); lists and strings reject string keys with TypeError; other values are
not subscriptable. -/
def pySubscript (container : Json) (key : Json) : Except String Json :=
  match container with
  | .obj fields =>
    match key with
    | .str k =>
      match jsonLookup fields k with
      | some v => .ok v
      | none => .error "KeyError"
    | .null | .bool _ | .num _ => .error "KeyError"
    | .arr _ | .obj _ => .error "TypeError"
  | _ => .error "TypeError"

/-- Whether the character list `needle` occurs contiguously inside `hay`. -/
def containsSub (needle : List Char) : List Char → Bool
  | [] => needle.isEmpty
  | c :: rest => needle.isPrefixOf (c :: rest) || containsSub needle rest

/-- Models the Python test `needle in container` for a string needle: key
membership for objects, element membership for lists (a string compares
equal only to an equal string), substring test for strings, TypeError for
non-container values. -/
def pyContains (needle : String) (container : Json) : Except String Bool :=
  match container with
  | .obj fields => .ok (fields.any (fun kv => kv.1 == needle))
  | .arr xs =>
    .ok (xs.any (fun x =>
      match x with
      | .str s => s == needle
      | _ => false))
  | .str s => .ok (containsSub needle.toList s.toList)
  | _ => .error "TypeError"

/-- Models the Python call `d.get(key, default)` where key is None or a
string: total on dicts, AttributeError on any non-dict receiver. -/
def pyGet (container : Json) (key : Option String) (dflt : Json) :
    Except String Json :=
  match container with
  | .obj fields =>
    .ok (match key with
         | some k => (jsonLookup fields k).getD dflt
         | none => dflt)
  | _ => .error "AttributeError"

/-- Models the Python emptiness test `not text_content.strip()` on line 51:
true exactly when the string is empty after stripping surrounding
whitespace, i.e. when every character is whitespace. -/
def isBlank (s : String) : Bool := s.toList.all Char.isWhitespace

/-- The four placeholder options shared by the hardcoded default questions
(quizapp.py lines 20–25 and the two copies below them). -/
def defaultOptions : Json :=
  .obj [("a", .str "Option A"), ("b", .str "Option B"),
        ("c", .str "Option C"), ("d", .str "Option D")]

/-- The fallback list DEFAULT_QUESTIONS["mcqs"] hardcoded at the top of
fetch_questions (quizapp.py lines 16–49). -/
def defaultQuestions : List Json :=
  [ .obj [("mcq", .str "Sample Question 1"), ("options", defaultOptions),
          ("correct", .str "a")],
    .obj [("mcq", .str "Sample Question 2"), ("options", defaultOptions),
          ("correct", .str "b")],
    .obj [("mcq", .str "Sample Question 3"), ("options", defaultOptions),
          ("correct", .str "c")] ]

/-- Outcome of one fetch_questions call: the returned question list, the
st.warning and st.error notices issued, and whether the generation
collaborator was invoked. -/
structure FetchResult where
  questions : List Json
  warnings : List String
  errors : List String
  apiCalled : Bool

/-- Models the structure check on quizapp.py line 121,
`"mcqs" in response_data and isinstance(response_data["mcqs"], list)`:
`some mcqs` when the check passes, `none` when the condition is false, and
an error when the Python expression itself raises (a TypeError for
non-container responses, caught by the enclosing handler). -/
def extractMcqs (response_data : Json) : Except String (Option (List Json)) := do
  let present ← pyContains "mcqs" response_data
  if present then
    let v ← pySubscript response_data (.str "mcqs")
    match v with
    | .arr xs => pure (some xs)
    | _ => pure none
  else
    pure none

/-- Models fetch_questions (quizapp.py lines 14–134). `collab` is the outcome
of the external generation call: `.error e` when the collaborator raises,
`.ok (.error e)` when its text fails to parse as JSON, `.ok (.ok v)` when it
parses to the value v. Empty trimmed input short-circuits before any call;
every failure on the generation path is mapped to the default questions. -/
def fetch_questions (text_content : String)
    (collab : Except String (Except String Json)) : FetchResult :=
  if isBlank text_content then
    { questions := [],
      warnings := ["Please enter some text content to generate questions."],
      errors := [], apiCalled := false }
  else
    match collab with
    | .error e =>
      { questions := defaultQuestions, warnings := [],
        errors := ["Error calling API: " ++ e], apiCalled := true }
    | .ok (.error _) =>
      { questions := defaultQuestions, warnings := [],
        errors := ["Failed to parse API response as JSON. Using default questions instead."],
        apiCalled := true }
    | .ok (.ok response_data) =>
      match extractMcqs response_data with
      | .ok (some mcqs) =>
        { questions := mcqs, warnings := [], errors := [], apiCalled := true }
      | .ok none =>
        { questions := defaultQuestions, warnings := [],
          errors := ["Invalid response structure from API"], apiCalled := true }
      | .error e =>
        { questions := defaultQuestions, warnings := [],
          errors := ["Error calling API: " ++ e], apiCalled := true }

/-- The Streamlit session state used by main: the loaded question list,
the per-question radio selections (None until a choice is made), and the
submitted flag (quizapp.py lines 144–149). -/
structure Session where
  questions : List Json
  selected_options : List (Option String)
  submitted : Bool

/-- Models the Generate Quiz branch (quizapp.py lines 152–159): the question
list is replaced by the fetch_questions result, the selections are reset to
a fresh all-None list of matching length, and submitted is reset to false.
The previous session contents are not consulted. -/
def generateQuiz (_prev : Session) (text_content : String)
    (collab : Except String (Except String Json)) : Session :=
  let qs := (fetch_questions text_content collab).questions
  { questions := qs,
    selected_options := List.replicate qs.length none,
    submitted := false }

/-- Models storing a radio choice (quizapp.py line 175):
`st.session_state.selected_options[i] = selected_option[0]`. The widget for
question i exists only for valid positions, which List.set mirrors by
leaving out-of-range indices unchanged. -/
def selectAnswer (s : Session) (i : Nat) (key : String) : Session :=
  { s with selected_options := s.selected_options.set i (some key) }

/-- Models Python's comparison `selected_key == correct_key` on line 200,
where selected_key is None or a str and correct_key is an arbitrary decoded
JSON value: equal strings compare equal, None compares equal to None (a
decoded JSON null), and everything else is unequal. -/
def selEq (selected : Option String) (correct : Json) : Bool :=
  match selected, correct with
  | some s, .str c => s == c
  | none, .null => true
  | _, _ => false

/-- Models one iteration of the results loop (quizapp.py lines 191–204):
read question["correct"], display question["mcq"], display the user's
answer via the guarded question["options"].get(selected_key,
"No answer selected"), look up the correct answer text via the unguarded
question["options"][correct_key], and report whether the selection equals
the correct key. -/
def gradeOne (question : Json) (selected_key : Option String) :
    Except String Bool := do
  let correct_key ← pySubscript question (.str "correct")
  let _mcq ← pySubscript question (.str "mcq")
  let opts ← pySubscript question (.str "options")
  let _shown ← pyGet opts selected_key (.str "No answer selected")
  let _correctText ← pySubscript opts correct_key
  pure (selEq selected_key correct_key)

/-- Models the marks computation of the results block (quizapp.py lines
188–204): walk the questions in order, reading selected_options[i]
positionally (an exhausted selection list is the IndexError of
selected_options[i]), grade each question, and count the correct ones. -/
def gradeResults : List Json → List (Option String) → Except String Nat
  | [], _ => .ok 0
  | _ :: _, [] => .error "IndexError"
  | q :: qs, sel :: sels => do
    let correct ← gradeOne q sel
    let marks ← gradeResults qs sels
    pure ((if correct then 1 else 0) + marks)

/-- Models reading a Python local variable: a read before the first
assignment raises UnboundLocalError. -/
def readLocal (v : Option Nat) : Except String Nat :=
  match v with
  | some n => .ok n
  | none => .error "UnboundLocalError"

/-- Models one script run of the tail of main (quizapp.py lines 161–206)
after the widgets have been rendered: when a question set is loaded, the
Submit Quiz branch first sets submitted and then evaluates
`score_percentage = (marks / len(questions)) * 100` (line 182) — but marks
is a local of main, unbound at the start of every run, its only assignments
sitting later in the results block (lines 188 and 201) — and afterwards the
results block recomputes the marks when submitted is set. Returns the
updated session, the displayed percentage if that line completed, and the
marks counted by the results block. -/
def mainRerun (submitPressed : Bool) (s : Session) :
    Except String (Session × Option ℚ × Option Nat) := do
  if s.questions.isEmpty then
    return (s, none, none)
  let marks0 : Option Nat := none
  let (s1, pct) ←
    if submitPressed then do
      let s1 : Session := { s with submitted := true }
      let marks ← readLocal marks0
      pure (s1, some ((marks : ℚ) / (s1.questions.length : ℚ) * 100))
    else
      pure (s, (none : Option ℚ))
  if s1.submitted then
    let marks ← gradeResults s1.questions s1.selected_options
    return (s1, pct, some marks)
  else
    return (s1, pct, none)

/-- The per-question structural invariant stated in the spec (sections 3 and
4.2 step 3): an object with non-empty question text, an options mapping
with exactly the four keys a,b,c,d each to non-empty text, and a correct
field naming one of the option keys. fetch_questions never checks this for
generated sets; it is stated here to compare against what the code accepts
and what the fallback provides. -/
def wellFormedQuestion (q : Json) : Bool :=
  match q with
  | .obj fields =>
    (match jsonLookup fields "mcq" with
     | some (.str s) => !s.isEmpty
     | _ => false) &&
    (match jsonLookup fields "options" with
     | some (.obj os) =>
       os.length == 4 &&
       ["a", "b", "c", "d"].all (fun k =>
         match jsonLookup os k with
         | some (.str s) => !s.isEmpty
         | _ => false)
     | _ => false) &&
    (match jsonLookup fields "options", jsonLookup fields "correct" with
     | some (.obj os), some (.str c) => os.any (fun kv => kv.1 == c)
     | _, _ => false)
  | _ => false

/-- The weakest shape under which one results-loop iteration cannot raise:
the question is an object carrying an mcq field and an options mapping, and
its correct field is a string that is one of the option keys. -/
def gradable (q : Json) : Bool :=
  match q with
  | .obj fields =>
    (jsonLookup fields "mcq").isSome &&
    (match jsonLookup fields "options", jsonLookup fields "correct" with
     | some (.obj os), some (.str c) => os.any (fun kv => kv.1 == c)
     | _, _ => false)
  | _ => false

/-- A question whose correct field names a key absent from its options:
item-level malformation that the structure check on line 121 admits. -/
def badCorrectQuestion : Json :=
  .obj [("mcq", .str "Sample Question 1"), ("options", defaultOptions),
        ("correct", .str "e")]

/-- A parsed response carrying the single malformed question above under the
mcqs key. -/
def badCorrectResponse : Json :=
  .obj [("mcqs", .arr [badCorrectQuestion])]

/-- A question with empty question text, failing the spec's per-item check
while satisfying everything else. -/
def emptyTextQuestion : Json :=
  .obj [("mcq", .str ""), ("options", defaultOptions), ("correct", .str "a")]

/-- A parsed response carrying the single empty-text question above under
the mcqs key. -/
def emptyTextResponse : Json :=
  .obj [("mcqs", .arr [emptyTextQuestion])]

theorem jsonLookup_isSome_of_mem (os : List (String × Json)) (c : String)
    (h : ∃ v, (c, v) ∈ os) : (jsonLookup os c).isSome = true := by
  obtain ⟨v, hv⟩ := h
  unfold jsonLookup
  rw [Option.isSome_map', List.find?_isSome]
  exact ⟨(c, v), hv, by simp⟩

theorem gradeOne_isOk (q : Json) (sel : Option String) (h : gradable q = true) :
    (gradeOne q sel).isOk = true := by
  cases q with
  | obj fields =>
    simp only [gradable, Bool.and_eq_true] at h
    obtain ⟨hmcq, hrest⟩ := h
    cases hc : jsonLookup fields "correct" with
    | none =>
      rw [hc] at hrest
      cases ho : jsonLookup fields "options" <;> rw [ho] at hrest <;> simp at hrest
    | some cv =>
      cases ho : jsonLookup fields "options" with
      | none => rw [hc, ho] at hrest; simp at hrest
      | some ov =>
        rw [hc, ho] at hrest
        cases ov <;> cases cv <;> simp at hrest
        case obj.str os cs =>
          obtain ⟨mv, hmv⟩ := Option.isSome_iff_exists.mp hmcq
          obtain ⟨ctext, hcx⟩ :=
            Option.isSome_iff_exists.mp (jsonLookup_isSome_of_mem os cs hrest)
          simp [gradeOne, pySubscript, pyGet, hc, ho, hmv, hcx,
                Except.isOk, Except.toBool, Bind.bind, Except.bind,
                Functor.map, Except.map, Pure.pure, Except.pure]
  | null => simp [gradable] at h
  | bool b => simp [gradable] at h
  | num n => simp [gradable] at h
  | str s => simp [gradable] at h
  | arr xs => simp [gradable] at h

theorem gradeResults_isOk (qs : List Json) (sels : List (Option String))
    (hall : qs.all gradable = true) (hlen : qs.length ≤ sels.length) :
    (gradeResults qs sels).isOk = true := by
  induction qs generalizing sels with
  | nil => simp [gradeResults, Except.isOk, Except.toBool]
  | cons q rest ih =>
    cases sels with
    | nil => simp at hlen
    | cons sel sels =>
      simp only [List.all_cons, Bool.and_eq_true] at hall
      obtain ⟨hq, hrest⟩ := hall
      have h1 := gradeOne_isOk q sel hq
      cases hg : gradeOne q sel with
      | error e => rw [hg] at h1; simp [Except.isOk, Except.toBool] at h1
      | ok b =>
        have h2 := ih sels hrest (by simpa using hlen)
        cases hr : gradeResults rest sels with
        | error e => rw [hr] at h2; simp [Except.isOk, Except.toBool] at h2
        | ok marks =>
          simp [gradeResults, hg, hr, Except.isOk, Except.toBool,
                Bind.bind, Except.bind, Pure.pure, Except.pure]

/-- Claim C1 (code bug): pressing Submit Quiz is meant to compute the score
and the percentage, but the percentage display in the Submit branch reads
the local variable marks before its first assignment — marks is assigned
only later, inside the results block — so that run fails with
UnboundLocalError; the marks count of the results block itself does equal
the number of positions whose selection matches the correct key (1 of 3
when the correct key a is selected for question 0 and the rest are unset). -/
theorem submit_reads_marks_before_assignment :
    (selectAnswer ⟨defaultQuestions, List.replicate 3 none, false⟩ 0 "a").selected_options
        = [some "a", none, none]
    ∧ mainRerun true (selectAnswer ⟨defaultQuestions, List.replicate 3 none, false⟩ 0 "a")
        = .error "UnboundLocalError"
    ∧ gradeResults defaultQuestions [some "a", none, none] = .ok 1 :=
  ⟨rfl, rfl, rfl⟩

/-- Claim C2 counterexample: a parsed response whose single mcqs item has
empty question text fails the per-item checks, yet fetch_questions returns
that batch unchanged, with no error notice and no fallback substitution. -/
theorem malformed_item_accepted_counterexample :
    wellFormedQuestion emptyTextQuestion = false
    ∧ fetch_questions "some text" (.ok (.ok emptyTextResponse))
        = { questions := [emptyTextQuestion], warnings := [], errors := [],
            apiCalled := true }
    ∧ (fetch_questions "some text" (.ok (.ok emptyTextResponse))).questions
        ≠ defaultQuestions :=
  ⟨by decide, rfl, fun h => absurd (congrArg List.length h) (by decide)⟩

/-- Claim C2 corrected: validation checks only that the parsed response has
a top-level mcqs key bound to a list; when that check fails it surfaces the
invalid-structure notice and substitutes the fallback set, but it performs
no per-item checks, so any list found under mcqs — malformed items
included — is returned as the question batch. -/
theorem validation_checks_mcqs_list_only (xs : List Json) :
    fetch_questions "some text" (.ok (.ok (.obj [("mcqs", .arr xs)])))
        = { questions := xs, warnings := [], errors := [], apiCalled := true }
    ∧ fetch_questions "some text" (.ok (.ok (.obj [("mcqs", .str "three")])))
        = { questions := defaultQuestions, warnings := [],
            errors := ["Invalid response structure from API"], apiCalled := true }
    ∧ fetch_questions "some text" (.ok (.ok (.obj [("quiz", .null)])))
        = { questions := defaultQuestions, warnings := [],
            errors := ["Invalid response structure from API"], apiCalled := true } :=
  ⟨rfl, rfl, rfl⟩

/-- Claim C3: whenever the response text fails to parse as JSON, the inner
handler absorbs the failure: fetch_questions returns the fallback questions
together with the parse-failure notice and — being a total function of its
inputs — raises nothing to its caller. -/
theorem parse_failure_absorbed (text_content e : String)
    (h : isBlank text_content = false) :
    fetch_questions text_content (.ok (.error e))
        = { questions := defaultQuestions, warnings := [],
            errors := ["Failed to parse API response as JSON. Using default questions instead."],
            apiCalled := true } := by
  unfold fetch_questions
  rw [if_neg (by simp [h])]

theorem parse_failure_absorbed_witness :
    fetch_questions "some text" (.ok (.error "Expecting value"))
        = { questions := defaultQuestions, warnings := [],
            errors := ["Failed to parse API response as JSON. Using default questions instead."],
            apiCalled := true } :=
  parse_failure_absorbed "some text" "Expecting value" rfl

/-- Claim C4: for text content that is empty after trimming, fetch_questions
returns an empty question list, surfaces the empty-input warning, and never
invokes the generation collaborator. -/
theorem whitespace_input_rejected (text_content : String)
    (collab : Except String (Except String Json))
    (h : isBlank text_content = true) :
    fetch_questions text_content collab
        = { questions := [],
            warnings := ["Please enter some text content to generate questions."],
            errors := [], apiCalled := false } := by
  unfold fetch_questions
  rw [if_pos h]

theorem whitespace_input_rejected_witness :
    fetch_questions "   " (.error "unreachable")
        = { questions := [],
            warnings := ["Please enter some text content to generate questions."],
            errors := [], apiCalled := false } :=
  whitespace_input_rejected "   " (.error "unreachable") rfl

/-- Claim C5 counterexample: for whitespace-only text content the fetch
returns the empty list, not the fixed placeholder question set, so the
fallback provider is not invoked on the empty-input path. -/
theorem whitespace_fallback_counterexample :
    (fetch_questions " " (.ok (.ok .null))).questions = []
    ∧ (fetch_questions " " (.ok (.ok .null))).questions ≠ defaultQuestions :=
  ⟨rfl, fun h => absurd (congrArg List.length h) (by decide)⟩

/-- Claim C5 corrected: when the empty-input check rejects whitespace-only
text content, the fetch returns an empty question list together with the
warning; the fallback set is not substituted on this path. -/
theorem whitespace_yields_empty_not_fallback (text_content : String)
    (collab : Except String (Except String Json))
    (h : isBlank text_content = true) :
    (fetch_questions text_content collab).questions = []
    ∧ (fetch_questions text_content collab).warnings
        = ["Please enter some text content to generate questions."]
    ∧ (fetch_questions text_content collab).questions ≠ defaultQuestions := by
  have hf : fetch_questions text_content collab
      = { questions := [],
          warnings := ["Please enter some text content to generate questions."],
          errors := [], apiCalled := false } := by
    unfold fetch_questions
    rw [if_pos h]
  refine ⟨by rw [hf], by rw [hf], ?_⟩
  rw [hf]
  exact fun hq => absurd (congrArg List.length hq) (by decide)

theorem whitespace_yields_empty_not_fallback_witness :
    (fetch_questions "  " (.ok (.error "boom"))).questions = []
    ∧ (fetch_questions "  " (.ok (.error "boom"))).warnings
        = ["Please enter some text content to generate questions."]
    ∧ (fetch_questions "  " (.ok (.error "boom"))).questions ≠ defaultQuestions :=
  whitespace_yields_empty_not_fallback "  " (.ok (.error "boom")) rfl

/-- Claim C6: every error raised by the generation collaborator call is
absorbed by the outer handler: fetch_questions returns the hardcoded
default questions with an error notice, and that set is a well-formed
3-question set, so the session never observes a missing or malformed
question set on this path. -/
theorem collaborator_error_absorbed (text_content e : String)
    (h : isBlank text_content = false) :
    fetch_questions text_content (.error e)
        = { questions := defaultQuestions, warnings := [],
            errors := ["Error calling API: " ++ e], apiCalled := true }
    ∧ (fetch_questions text_content (.error e)).questions.length = 3
    ∧ (fetch_questions text_content (.error e)).questions.all wellFormedQuestion
        = true := by
  have hf : fetch_questions text_content (.error e)
      = { questions := defaultQuestions, warnings := [],
          errors := ["Error calling API: " ++ e], apiCalled := true } := by
    unfold fetch_questions
    rw [if_neg (by simp [h])]
  refine ⟨hf, by rw [hf]; rfl, ?_⟩
  rw [hf]
  show defaultQuestions.all wellFormedQuestion = true
  decide

theorem collaborator_error_absorbed_witness :
    fetch_questions "some text" (.error "connection refused")
        = { questions := defaultQuestions, warnings := [],
            errors := ["Error calling API: " ++ "connection refused"],
            apiCalled := true }
    ∧ (fetch_questions "some text" (.error "connection refused")).questions.length = 3
    ∧ (fetch_questions "some text" (.error "connection refused")).questions.all
        wellFormedQuestion = true :=
  collaborator_error_absorbed "some text" "connection refused" rfl

/-- Claim C7 counterexample: a response that passes the structure check with
a two-element mcqs list leaves the session holding a question set of length
2, so a session question set need not have exactly 3 questions. -/
theorem validated_set_length_counterexample :
    (generateQuiz ⟨[], [], false⟩ "some text"
        (.ok (.ok (.obj [("mcqs", .arr [.null, .null])])))).questions.length ≠ 3 := by
  decide

/-- Claim C7 corrected: the fallback set always has exactly 3 questions, but
a set accepted by a successful validation pass is returned as-is with no
length check, so its length is whatever the response carried. -/
theorem fallback_three_validated_unchecked (xs : List Json) :
    defaultQuestions.length = 3
    ∧ (fetch_questions "some text"
        (.ok (.ok (.obj [("mcqs", .arr xs)])))).questions.length = xs.length :=
  ⟨rfl, rfl⟩

/-- Claim C8: obtaining a new question set fully replaces the session —
whatever the previous session held, the selections become an all-unset list
whose length equals the number of questions and the submitted flag is reset
to false. -/
theorem generate_resets_session (prev : Session) (text_content : String)
    (collab : Except String (Except String Json)) :
    (generateQuiz prev text_content collab).selected_options
        = List.replicate (generateQuiz prev text_content collab).questions.length none
    ∧ (generateQuiz prev text_content collab).submitted = false
    ∧ (generateQuiz prev text_content collab).selected_options.length
        = (generateQuiz prev text_content collab).questions.length
    ∧ generateQuiz prev text_content collab
        = generateQuiz ⟨[], [], false⟩ text_content collab := by
  refine ⟨rfl, rfl, ?_, rfl⟩
  simp [generateQuiz]

/-- Claim C9: the hardcoded fallback set satisfies the structural invariants
required of validated generated sets — exactly 3 questions, each an object
with non-empty question text, exactly the four options a,b,c,d mapped to
non-empty text, and a correct key that is among the option keys. -/
theorem fallback_satisfies_invariants :
    defaultQuestions.length = 3
    ∧ defaultQuestions.all wellFormedQuestion = true :=
  ⟨rfl, by decide⟩

/-- Claim C10: grading is total under the precondition that every question
carries its fields and its correct key among its option keys; an unset
selection alone grades fine through the guarded lookup with the
no-answer default, but the structure check admits a set whose correct key
is absent from its options, and grading that set stops with a key-lookup
error at the unguarded correct-answer lookup. -/
theorem grading_total_iff_correct_key_present :
    (∀ (qs : List Json) (sels : List (Option String)),
        qs.all gradable = true → qs.length ≤ sels.length →
        (gradeResults qs sels).isOk = true)
    ∧ gradeResults defaultQuestions [none, none, none] = .ok 0
    ∧ (fetch_questions "some text" (.ok (.ok badCorrectResponse))).questions
        = [badCorrectQuestion]
    ∧ gradeResults [badCorrectQuestion] [none] = .error "KeyError" :=
  ⟨gradeResults_isOk, rfl, rfl, rfl⟩

theorem grading_total_iff_correct_key_present_witness :
    (gradeResults defaultQuestions [some "a", some "b", some "c"]).isOk = true :=
  grading_total_iff_correct_key_present.1 defaultQuestions
    [some "a", some "b", some "c"] (by decide) (by decide)

end QuizApp
